import Mathlib

/-!
Verification of the phoneme-to-chakra story pipeline (`app.py`).

Strings are modelled as lists of characters (`Str`).  The pure pipeline
functions (`normalize_phoneme`, `map_phonemes_to_chakras`) are embedded
directly; the single network call of `generate_story` is modelled by an
oracle argument `post : Str → PostResult` giving the outcome of the HTTP
POST for a given prompt, and `generate_story` additionally returns the
list of prompts it sent (so "zero network calls" is "the list is empty").
-/

namespace StoryApp

abbrev Str := List Char

/-- Coerce a Lean string literal to the `List Char` model. -/
def str (s : String) : Str := s.data

/-- Membership of a character in the regex character class `[ˈˌː]` of
`re.sub(r"[ˈˌː]", "", phoneme)`. -/
def isMark (c : Char) : Bool := c == 'ˈ' || c == 'ˌ' || c == 'ː'

/-- Model of `re.sub(r"[ˈˌː]", "", phoneme)`: substituting the empty string
for every character of the class deletes exactly those characters. -/
def reSubMarks (s : Str) : Str := s.filter (fun c => !isMark c)

/-- Drop the leading whitespace run (one side of Python `str.strip()`). -/
def wsDrop (s : Str) : Str := s.dropWhile Char.isWhitespace

/-- Model of Python `str.strip()`: remove leading and trailing whitespace. -/
def pyStrip (s : Str) : Str := List.rdropWhile Char.isWhitespace (wsDrop s)

/-- `normalize_phoneme` from `app.py`:
`re.sub(r"[ˈˌː]", "", phoneme).strip()`. -/
def normalize_phoneme (phoneme : Str) : Str := pyStrip (reSubMarks phoneme)

/-- Python `dict` lookup, modelled on an association list with unique keys
(first match wins). -/
def dictLookup (m : List (Str × Str)) (k : Str) : Option Str :=
  match m with
  | [] => none
  | (k2, v) :: rest => if k2 = k then some v else dictLookup rest k

/-- `map_phonemes_to_chakras` from `app.py`, parameterised by the
phoneme→chakra dictionary (the global `phoneme_chakra_map`).  For each
phoneme, in order: normalize, look up; on a hit append the chakra to both
the `matched_phonemes` triples and the `chakras` list, on a miss append a
triple with the sentinel `"Not found"`.  Returns
`(matched_phonemes, chakras)`. -/
def map_phonemes_to_chakras (pmap : List (Str × Str)) :
    List Str → List (Str × Str × Str) × List Str
  | [] => ([], [])
  | p :: ps =>
    let n := normalize_phoneme p
    let rest := map_phonemes_to_chakras pmap ps
    match dictLookup pmap n with
    | some c => ((p, n, c) :: rest.1, c :: rest.2)
    | none => ((p, n, str "Not found") :: rest.1, rest.2)

/-- The fixed `chakra_desc` table of `generate_story`. -/
def chakra_desc : List (Str × Str) :=
  [ (str "Muladhara", str "root chakra, symbolizing grounding and stability"),
    (str "Svadhisthana", str "sacral chakra, representing creativity and emotion"),
    (str "Manipura", str "solar plexus chakra, embodying power and will"),
    (str "Anahata", str "heart chakra, signifying love and compassion"),
    (str "Vishuddha", str "throat chakra, associated with communication and truth"),
    (str "Ajna", str "third eye chakra, linked to intuition and wisdom"),
    (str "Sahasrara", str "crown chakra, connecting to divine consciousness") ]

/-- Lookup in the `chakra_desc` dictionary. -/
def descLookup (k : Str) : Option Str := dictLookup chakra_desc k

/-- Fixed prompt text before the protagonist interpolation. -/
def promptPartA : Str :=
  str "\n    Write a mystical story (500-1000 words) set in the ancient Indian mythological age, during the era of gods, sages, and cosmic battles. The story should center on the protagonist, "

/-- Fixed prompt text between the protagonist and the chakra enumeration. -/
def promptPartB : Str :=
  str ", who embarks on a spiritual quest guided by the chakras: "

/-- Fixed prompt text between the enumeration and the description clauses. -/
def promptPartC : Str :=
  str ". Each chakra influences the narrative, reflecting its symbolic meaning ("

/-- Fixed prompt text after the description clauses. -/
def promptPartD : Str :=
  str "). Incorporate Indian mythological elements (e.g., deities like Vishnu, Shiva, or Devi, sacred rivers, or ancient forests). The story should be vivid, enchanting, and deeply spiritual, with a tone of awe and reverence.\n    "

/-- The f-string prompt of `generate_story`, applied to `unique_chakras`
(the deduplicated chakra list).  `{name or 'a sage'}` is Python truthiness
on strings: the empty string falls back to `"a sage"`.  The comprehension
`[f'{k}: {chakra_desc[k]}' for k in unique_chakras if k in chakra_desc]`
is the `filterMap` below. -/
def build_prompt (name : Str) (unique_chakras : List Str) : Str :=
  promptPartA ++ (if name = [] then str "a sage" else name) ++ promptPartB
    ++ List.intercalate (str ", ") unique_chakras ++ promptPartC
    ++ List.intercalate (str "; ")
        (unique_chakras.filterMap (fun k => (descLookup k).map (fun d => k ++ str ": " ++ d)))
    ++ promptPartD

/-- The parse of an HTTP response body, as seen by
`response.json()["choices"][0]["text"]`: either `response.json()` raises
(malformed body, with an exception message), or it yields a payload whose
`choices` key is absent (`json none`) or holds a list of choices, each
with or without a `text` field. -/
inductive Body where
  | malformed (e : Str)
  | json (choices : Option (List (Option Str)))
deriving DecidableEq

/-- Outcome of `requests.post`: a transport exception, or a response with
an HTTP status code and a body. -/
inductive PostResult where
  | exn (e : Str)
  | ok (status : Nat) (body : Body)
deriving DecidableEq

/-- Head of every error return of `generate_story`:
`f"Error generating story: {e}"`. -/
def errTag : Str := str "Error generating story: "

/-- Message of the `HTTPError` raised by `response.raise_for_status()`. -/
def raiseForStatusMsg (status : Nat) : Str :=
  if status < 500 then (Nat.repr status).data ++ str " Client Error"
  else (Nat.repr status).data ++ str " Server Error"

/-- The `try` block of `generate_story` after the POST: `raise_for_status`
(raises exactly on status 400–599), then extract
`json()["choices"][0]["text"].strip()`; every raised exception is caught
and rendered as `f"Error generating story: {e}"`. -/
def tryBlock (r : PostResult) : Str :=
  match r with
  | .exn e => errTag ++ e
  | .ok status body =>
    if 400 ≤ status ∧ status < 600 then errTag ++ raiseForStatusMsg status
    else
      match body with
      | .malformed e => errTag ++ e
      | .json none => errTag ++ str "\x27choices\x27"
      | .json (some []) => errTag ++ str "list index out of range"
      | .json (some (none :: _)) => errTag ++ str "\x27text\x27"
      | .json (some (some t :: _)) => pyStrip t

/-- `generate_story` from `app.py`.  The network is the oracle
`post : prompt ↦ PostResult`; the second component of the result lists the
prompts actually POSTed (empty ⟺ zero network calls).  The guards run in
source order: empty `chakras` first, then empty `api_key`; otherwise
`unique_chakras = list(set(chakras))` (modelled as `List.dedup`), the
prompt is built, and the single POST is issued inside the `try`. -/
def generate_story (name : Str) (chakras : List Str) (api_key : Str)
    (post : Str → PostResult) : Str × List Str :=
  if chakras = [] then (str "No chakras found to generate a story.", [])
  else if api_key = [] then (str "Please provide a valid xAI API key.", [])
  else
    let unique_chakras := chakras.dedup
    let prompt := build_prompt name unique_chakras
    (tryBlock (post prompt), [prompt])

/-- Modelled from the spec: the Phoneme Normalizer contract in its own
words — remove exactly the characters `ˈ ˌ ː` (no other characters), then
trim leading and trailing whitespace. -/
def normalizeSpec (p : Str) : Str :=
  pyStrip (p.filter (fun c => decide (c ≠ 'ˈ' ∧ c ≠ 'ˌ' ∧ c ≠ 'ː')))

/-- Modelled from the spec: the seven fixed category names of the
description lookup. -/
def sevenCategories : List Str :=
  [ str "Muladhara", str "Svadhisthana", str "Manipura", str "Anahata",
    str "Vishuddha", str "Ajna", str "Sahasrara" ]

/-- The phoneme→chakra dictionary of the spec's "Mahaan" scenario. -/
def scenarioMap : List (Str × Str) :=
  [ (str "m", str "Muladhara"), (str "ɑ", str "Manipura"),
    (str "h", str "Vishuddha"), (str "n", str "Anahata") ]

/-- The phoneme sequence of the spec's "Mahaan" scenario. -/
def scenarioPhonemes : List Str := [str "m", str "ɑː", str "h", str "ɑː", str "n"]

/-! ## Helper lemmas -/

/-- The leading-whitespace drop is a no-op on an already stripped string. -/
theorem wsDrop_pyStrip (s : Str) : wsDrop (pyStrip s) = pyStrip s := by
  rw [pyStrip, wsDrop, List.dropWhile_eq_self_iff]
  intro hl
  have hpre := List.rdropWhile_prefix Char.isWhitespace (wsDrop s)
  have hlen : 0 < (wsDrop s).length := lt_of_lt_of_le hl hpre.length_le
  have hnot := List.dropWhile_get_zero_not Char.isWhitespace s hlen
  simp only [List.get_eq_getElem] at hnot ⊢
  rw [List.IsPrefix.getElem hpre hl]
  exact hnot

/-- Python `strip` is idempotent. -/
theorem pyStrip_idem (s : Str) : pyStrip (pyStrip s) = pyStrip s := by
  conv_lhs => rw [pyStrip, wsDrop_pyStrip]
  rw [pyStrip, List.rdropWhile_idempotent]

/-- Stripping only deletes characters. -/
theorem pyStrip_sublist (s : Str) : (pyStrip s).Sublist s := by
  have h1 : (pyStrip s).Sublist (wsDrop s) :=
    ( List.rdropWhile_prefix Char.isWhitespace (wsDrop s)).sublist
  have h2 : (wsDrop s).Sublist s := (List.dropWhile_suffix Char.isWhitespace).sublist
  exact h1.trans h2

/-- The regex class test agrees with the spec's three-character description. -/
theorem mark_bool_iff (c : Char) :
    (!isMark c) = decide (c ≠ 'ˈ' ∧ c ≠ 'ˌ' ∧ c ≠ 'ː') := by
  rw [Bool.eq_iff_iff]
  simp [isMark, not_or, and_assoc]

/-- A successful dictionary lookup returns one of the dictionary's values. -/
theorem dictLookup_mem_values {m : List (Str × Str)} {k v : Str}
    (h : dictLookup m k = some v) : ∃ kv ∈ m, kv.2 = v := by
  induction m with
  | nil => simp [dictLookup] at h
  | cons kv rest ih =>
    rw [dictLookup] at h
    by_cases hk : kv.1 = k
    · refine ⟨kv, List.mem_cons_self _ _, ?_⟩
      simp only [hk, if_pos rfl] at h
      exact Option.some_injective _ h |>.symm ▸ rfl
    · rw [if_neg hk] at h
      obtain ⟨kv2, hmem, hv⟩ := ih h
      exact ⟨kv2, List.mem_cons_of_mem _ hmem, hv⟩

/-- A dictionary lookup succeeds exactly on the dictionary's keys. -/
theorem dictLookup_isSome_iff {m : List (Str × Str)} {k : Str} :
    (dictLookup m k).isSome ↔ k ∈ m.map Prod.fst := by
  induction m with
  | nil => simp [dictLookup]
  | cons kv rest ih =>
    rw [dictLookup]
    by_cases hk : kv.1 = k
    · simp [hk]
    · simp [hk, ih, Ne.symm hk]

/-- The description lookup succeeds exactly on the seven fixed category
names. -/
theorem descKey_iff (k : Str) : (descLookup k).isSome ↔ k ∈ sevenCategories := by
  rw [descLookup, dictLookup_isSome_iff]
  have h : chakra_desc.map Prod.fst = sevenCategories := by rfl
  rw [h]

/-- The description-clause comprehension keeps exactly the categories among
the seven described ones. -/
theorem filterMap_desc (l : List Str) :
    l.filterMap (fun k => (descLookup k).map (fun d => k ++ str ": " ++ d)) =
    (l.filter (fun k => decide (k ∈ sevenCategories))).map
      (fun k => k ++ str ": " ++ (descLookup k).getD []) := by
  induction l with
  | nil => rfl
  | cons k l ih =>
    simp only [List.append_assoc] at ih
    cases hd : descLookup k with
    | none =>
      have hf : decide (k ∈ sevenCategories) = false := by
        rw [decide_eq_false_iff_not]
        intro hmem
        have hsome := (descKey_iff k).mpr hmem
        rw [hd] at hsome
        simp at hsome
      simp [List.filterMap_cons, List.filter_cons, hd, hf, ih]
    | some d =>
      have ht : decide (k ∈ sevenCategories) = true := by
        rw [decide_eq_true_eq]
        exact (descKey_iff k).mp (by simp [hd])
      simp [List.filterMap_cons, List.filter_cons, hd, ht, ih]

/-! ## Claims -/

/-- C1 (counterexample): on the spec's own scenario — phonemes
`["m", "ɑː", "h", "ɑː", "n"]` with mapping m↦Muladhara, ɑ↦Manipura,
h↦Vishuddha, n↦Anahata — the second result of `map_phonemes_to_chakras`
is NOT a duplicate-free set of size 4: it is the 5-element list with
"Manipura" twice. -/
theorem chakras_scenario_has_duplicates :
    (map_phonemes_to_chakras scenarioMap scenarioPhonemes).2 =
      [ str "Muladhara", str "Manipura", str "Vishuddha", str "Manipura", str "Anahata" ]
    ∧ ¬ (map_phonemes_to_chakras scenarioMap scenarioPhonemes).2.Nodup
    ∧ (map_phonemes_to_chakras scenarioMap scenarioPhonemes).2.length ≠ 4 := by
  decide

/-- C1 (amended): the category collection returned by
`map_phonemes_to_chakras` is an ordered list that preserves duplicates
(deduplication happens later, inside `generate_story`); on the scenario
input its distinct categories are exactly the four named ones, size 4. -/
theorem chakras_scenario_dedup_four :
    (map_phonemes_to_chakras scenarioMap scenarioPhonemes).2.dedup.Perm
      [ str "Muladhara", str "Manipura", str "Vishuddha", str "Anahata" ]
    ∧ (map_phonemes_to_chakras scenarioMap scenarioPhonemes).2.dedup.length = 4 := by
  decide

/-- C2 (counterexample): with BOTH the category list and the credential
empty, `generate_story` returns the no-chakras message, not the API-key
message — the empty-categories guard runs first. -/
theorem empty_key_and_chakras_precedence :
    (generate_story [] [] [] (fun _ => PostResult.exn [])).1
      = str "No chakras found to generate a story."
    ∧ (generate_story [] [] [] (fun _ => PostResult.exn [])).1
      ≠ str "Please provide a valid xAI API key." :=
  ⟨rfl, by decide⟩

/-- C2 (amended): for every name, every NON-EMPTY category list and every
oracle, an empty credential makes `generate_story` return exactly
"Please provide a valid xAI API key." with zero network calls. -/
theorem empty_key_message (name : Str) (chakras : List Str) (post : Str → PostResult)
    (h : chakras ≠ []) :
    generate_story name chakras [] post = (str "Please provide a valid xAI API key.", []) := by
  rw [generate_story, if_neg h, if_pos rfl]

/-- C2 (witness): the amended statement at a concrete non-empty category
list. -/
theorem empty_key_message_witness :
    generate_story [] [ str "Muladhara"] [] (fun _ => PostResult.exn [])
      = (str "Please provide a valid xAI API key.", []) :=
  empty_key_message [] [ str "Muladhara"] (fun _ => PostResult.exn []) (by decide)

/-- C3: for every name, every credential and every oracle, an empty
category list makes `generate_story` return exactly
"No chakras found to generate a story." with zero network calls. -/
theorem empty_chakras_message (name api_key : Str) (post : Str → PostResult) :
    generate_story name [] api_key post = (str "No chakras found to generate a story.", []) := rfl

/-- C4: `normalize_phoneme` is total and agrees with the spec's
description: it removes exactly the characters ˈ, ˌ and ː (no other
characters) and then trims surrounding whitespace; its output only drops
characters of the input, and never contains a mark. -/
theorem normalize_phoneme_matches_spec (p : Str) :
    normalize_phoneme p = normalizeSpec p
    ∧ (normalize_phoneme p).Sublist p
    ∧ ∀ c ∈ normalize_phoneme p, c ≠ 'ˈ' ∧ c ≠ 'ˌ' ∧ c ≠ 'ː' := by
  have heq : normalize_phoneme p = normalizeSpec p := by
    rw [normalize_phoneme, normalizeSpec, reSubMarks]
    congr 1
    exact List.filter_congr (fun c _ => mark_bool_iff c)
  refine ⟨heq, ?_, ?_⟩
  · exact (pyStrip_sublist _).trans (List.filter_sublist _)
  · intro c hc
    have hmem : c ∈ reSubMarks p := (pyStrip_sublist _).subset hc
    have := (List.mem_filter.mp hmem).2
    rw [mark_bool_iff, decide_eq_true_eq] at this
    exact this

/-- C4 (witness): the characterization evaluated at a concrete input. -/
theorem normalize_phoneme_matches_spec_witness :
    normalize_phoneme (str " ˈmɑː ") = normalizeSpec (str " ˈmɑː ") :=
  (normalize_phoneme_matches_spec (str " ˈmɑː ")).1

/-- C5: normalization is idempotent, and a symbol that contains none of
ˈ ˌ ː and has no leading or trailing whitespace is returned unchanged. -/
theorem normalize_phoneme_idem (s : Str) :
    normalize_phoneme (normalize_phoneme s) = normalize_phoneme s
    ∧ ((∀ c ∈ s, c ≠ 'ˈ' ∧ c ≠ 'ˌ' ∧ c ≠ 'ː') →
       (∀ c, s.head? = some c → ¬c.isWhitespace) →
       (∀ c, s.getLast? = some c → ¬c.isWhitespace) →
       normalize_phoneme s = s) := by
  constructor
  · simp only [normalize_phoneme]
    have h1 : reSubMarks (pyStrip (reSubMarks s)) = pyStrip (reSubMarks s) := by
      rw [reSubMarks, List.filter_eq_self]
      intro a ha
      have hmem : a ∈ reSubMarks s := (pyStrip_sublist _).subset ha
      exact (List.mem_filter.mp hmem).2
    rw [h1, pyStrip_idem]
  · intro hmk hwsh hwsl
    have h1 : reSubMarks s = s := by
      rw [reSubMarks, List.filter_eq_self]
      intro a ha
      rw [mark_bool_iff, decide_eq_true_eq]
      exact hmk a ha
    rw [normalize_phoneme, h1, pyStrip]
    have h2 : wsDrop s = s := by
      rw [wsDrop, List.dropWhile_eq_self_iff]
      intro hl
      have hne : s ≠ [] := List.ne_nil_of_length_pos hl
      have := hwsh (s.head hne) (List.head?_eq_head hne)
      rw [List.head_eq_getElem_zero hne] at this
      simpa using this
    rw [h2, List.rdropWhile_eq_self_iff]
    intro hne
    exact hwsl (s.getLast hne) (List.getLast?_eq_getLast s hne)

/-- C5 (witness): idempotence at a concrete marked input, and the no-op
case at a concrete clean symbol. -/
theorem normalize_phoneme_idem_witness :
    normalize_phoneme (normalize_phoneme (str " mˈɑː ")) = normalize_phoneme (str " mˈɑː ")
    ∧ normalize_phoneme (str "mɑ") = str "mɑ" :=
  ⟨(normalize_phoneme_idem (str " mˈɑː ")).1,
   (normalize_phoneme_idem (str "mɑ")).2 (by decide)
     (fun c hc => by injection hc with h; subst h; decide)
     (fun c hc => by injection hc with h; subst h; decide)⟩

/-- C6: for every dictionary and phoneme sequence, the MatchRecord list of
`map_phonemes_to_chakras` has the length of the input, its first
components are the input phonemes in order, and its second components are
their normalized forms in order. -/
theorem matched_records_shape (pmap : List (Str × Str)) (ps : List Str) :
    (map_phonemes_to_chakras pmap ps).1.length = ps.length
    ∧ (map_phonemes_to_chakras pmap ps).1.map (fun r => r.1) = ps
    ∧ (map_phonemes_to_chakras pmap ps).1.map (fun r => r.2.1) = ps.map normalize_phoneme := by
  induction ps with
  | nil => simp [map_phonemes_to_chakras]
  | cons p ps ih =>
    cases hd : dictLookup pmap (normalize_phoneme p) <;>
      simp [map_phonemes_to_chakras, hd, ih.1, ih.2.1, ih.2.2]

/-- C7 (counterexample): the sentinel CAN appear in the category
collection — a dictionary that itself maps a symbol to the value
"Not found" puts the sentinel string into the second result. -/
theorem sentinel_reachable_in_chakras :
    str "Not found" ∈ (map_phonemes_to_chakras [(str "x", str "Not found")] [str "x"]).2 := by
  decide

/-- C7 (amended): whenever "Not found" is not among the dictionary's
values, the sentinel never appears in the category collection — an
unmatched phoneme contributes only to its MatchRecord, never to the
category list. -/
theorem sentinel_not_in_chakras (pmap : List (Str × Str)) (ps : List Str)
    (h : ∀ kv ∈ pmap, kv.2 ≠ str "Not found") :
    str "Not found" ∉ (map_phonemes_to_chakras pmap ps).2 := by
  induction ps with
  | nil => simp [map_phonemes_to_chakras]
  | cons p ps ih =>
    cases hd : dictLookup pmap (normalize_phoneme p) with
    | none => simpa [map_phonemes_to_chakras, hd] using ih
    | some c =>
      simp only [map_phonemes_to_chakras, hd, List.mem_cons, not_or]
      refine ⟨?_, ih⟩
      obtain ⟨kv, hmem, hv⟩ := dictLookup_mem_values hd
      intro hcontra
      exact h kv hmem (hv.trans hcontra.symm) |>.elim

/-- C7 (witness): the amended statement on the scenario dictionary, whose
values avoid the sentinel. -/
theorem sentinel_not_in_chakras_witness :
    str "Not found" ∉ (map_phonemes_to_chakras scenarioMap scenarioPhonemes).2 :=
  sentinel_not_in_chakras scenarioMap scenarioPhonemes (by decide)

/-- C8: with non-empty categories and credential, `generate_story` returns
the stripped `text` of the first choice whenever the oracle yields a
success-status response with a well-formed body, and in every other case
(transport exception, 4xx/5xx status, malformed body, missing or empty
choices, missing text) returns "Error generating story: " followed by the
failure details; being a total function, no failure escapes. -/
theorem generate_story_http_outcomes (name : Str) (chakras : List Str) (api_key : Str)
    (post : Str → PostResult) (h1 : chakras ≠ []) (h2 : api_key ≠ []) :
    (∀ status rest t, post (build_prompt name chakras.dedup)
          = PostResult.ok status (Body.json (some (some t :: rest))) →
        ¬ (400 ≤ status ∧ status < 600) →
        (generate_story name chakras api_key post).1 = pyStrip t)
    ∧ ((∀ status rest t, post (build_prompt name chakras.dedup)
          = PostResult.ok status (Body.json (some (some t :: rest))) →
        400 ≤ status ∧ status < 600) →
      ∃ d, (generate_story name chakras api_key post).1 = errTag ++ d) := by
  have hg : (generate_story name chakras api_key post).1
      = tryBlock (post (build_prompt name chakras.dedup)) := by
    rw [generate_story, if_neg h1, if_neg h2]
  constructor
  · intro status rest t hpost hst
    rw [hg, hpost]
    simp [tryBlock, hst]
  · intro hall
    rw [hg]
    cases hp : post (build_prompt name chakras.dedup) with
    | exn e => exact ⟨e, by simp [tryBlock]⟩
    | ok status body =>
      by_cases hs : 400 ≤ status ∧ status < 600
      · exact ⟨raiseForStatusMsg status, by simp [tryBlock, hs]⟩
      · cases body with
        | malformed e => exact ⟨e, by simp [tryBlock, hs]⟩
        | json choices =>
          match choices with
          | none => exact ⟨str "\x27choices\x27", by simp [tryBlock, hs]⟩
          | some [] => exact ⟨str "list index out of range", by simp [tryBlock, hs]⟩
          | some (none :: rest) => exact ⟨str "\x27text\x27", by simp [tryBlock, hs]⟩
          | some (some t :: rest) => exact absurd (hall status rest t hp) hs

/-- C8 (witness): an HTTP 500 response yields a story string of the form
"Error generating story: " followed by details. -/
theorem generate_story_http_outcomes_witness :
    ∃ d, (generate_story (str "A") [ str "Muladhara"] (str "k")
        (fun _ => PostResult.ok 500 (Body.json (some [some (str "x")])))).1 = errTag ++ d := by
  refine (generate_story_http_outcomes (str "A") [ str "Muladhara"] (str "k")
    (fun _ => PostResult.ok 500 (Body.json (some [some (str "x")])))
    (by decide) (by decide)).2 ?_
  intro status rest t hpost
  injection hpost with hstatus hbody
  subst hstatus
  exact ⟨by decide, by decide⟩

/-- C9: with non-empty categories and credential, the single prompt sent
by `generate_story` names the protagonist (the input name, or "a sage"
when the name is empty), enumerates the distinct categories (a
duplicate-free list with exactly the members of the input), and appends a
"name: description" clause for exactly the categories among the seven
fixed names of the description lookup. -/
theorem generate_story_prompt_shape (name : Str) (chakras : List Str) (api_key : Str)
    (post : Str → PostResult) (h1 : chakras ≠ []) (h2 : api_key ≠ []) :
    (generate_story name chakras api_key post).2 = [build_prompt name chakras.dedup]
    ∧ chakras.dedup.Nodup
    ∧ (∀ c, c ∈ chakras.dedup ↔ c ∈ chakras)
    ∧ (∀ k, (descLookup k).isSome ↔ k ∈ sevenCategories)
    ∧ build_prompt name chakras.dedup =
        promptPartA ++ (if name = [] then str "a sage" else name) ++ promptPartB
        ++ List.intercalate (str ", ") chakras.dedup ++ promptPartC
        ++ List.intercalate (str "; ")
            ((chakras.dedup.filter (fun k => decide (k ∈ sevenCategories))).map
              (fun k => k ++ str ": " ++ (descLookup k).getD [])) ++ promptPartD := by
  refine ⟨?_, List.nodup_dedup _, fun c => List.mem_dedup, descKey_iff, ?_⟩
  · rw [generate_story, if_neg h1, if_neg h2]
  · rw [build_prompt, filterMap_desc]

/-- C9 (witness): the prompt actually sent at a concrete input, with a
duplicated category and one category outside the seven. -/
theorem generate_story_prompt_shape_witness :
    (generate_story [] [ str "Muladhara", str "Muladhara", str "Flux"] (str "k")
       (fun _ => PostResult.exn [])).2
      = [build_prompt [] [ str "Muladhara", str "Muladhara", str "Flux"].dedup] :=
  (generate_story_prompt_shape [] _ (str "k") (fun _ => PostResult.exn [])
    (by decide) (by decide)).1

/-- C10: for every dictionary and phoneme sequence, the category
collection of `map_phonemes_to_chakras` is exactly the list of dictionary
values of the matched phonemes in input order, duplicates preserved. -/
theorem chakras_eq_filterMap (pmap : List (Str × Str)) (ps : List Str) :
    (map_phonemes_to_chakras pmap ps).2 =
      ps.filterMap (fun p => dictLookup pmap (normalize_phoneme p)) := by
  induction ps with
  | nil => rfl
  | cons p ps ih =>
    cases hd : dictLookup pmap (normalize_phoneme p) <;>
      simp [map_phonemes_to_chakras, List.filterMap_cons, hd, ih]

end StoryApp
